import Mathlib

/-!
# gpsd_client: version normalisation and fix classification

A shallow embedding of `src/gpsd_client/src/client.cpp` (class `GPSDClient`:
`process_data`, `process_data_gps`, `process_data_navsat`) and theorems about it.

Conventions of the embedding.

* The preprocessor constant `GPSD_API_MAJOR_VERSION` is the parameter `api : Nat`;
  every `#if` of the source is an `if` on `api`.  The source refuses to build for
  `api < 3` (`#error`), so the theorems about "every API generation" assume `3 ≤ api`.
* `gps_data_t` carries the fields of all generations side by side; the code of one
  generation reads only the fields that exist in that generation.  Where one C field
  changed its type (`online`, `fix.time`: `double` before generation 9, `timespec`
  from generation 9 on) the `timespec` variant has the suffix `_ts`.
* A `double` is NaN, an infinity or a rational number.  The program only copies
  doubles and tests them with `std::isnan` and for zero, except for one sum in
  `process_data_gps`, which is evaluated exactly (rounding is not modelled).
* `ros::Time` is a library type.  Its values are kept symbolic: a value records
  the constructor call that produced it.
* Publishing is explicit state passing: `Bus` holds, per publisher, the messages
  published so far, oldest first.
-/

namespace gpsd_client

/-! ## Scalars -/

/-- A C `double`: NaN, plus or minus infinity, or a finite value. -/
inductive Double where
  | nan
  | inf (negative : Bool)
  | fin (q : ℚ)
  deriving DecidableEq, Repr

/-- The value `0.0`, to which a ROS message initialises each of its float64 fields. -/
instance : Inhabited Double := ⟨Double.fin 0⟩

/-- C++ `std::isnan`. -/
def Double.isnan : Double → Bool
  | Double.nan => true
  | _ => false

/-- Conversion of a `double` to `bool` in a condition: false exactly for zero
(NaN and the infinities are true). -/
def Double.toBool : Double → Bool
  | Double.fin q => decide (q ≠ 0)
  | _ => true

/-- C `struct timespec`. -/
structure timespec where
  tv_sec : Int := 0
  tv_nsec : Int := 0
  deriving DecidableEq, Repr

/-- The sum `(double)(ts.tv_sec) + (double)(ts.tv_nsec) / 1000000.`, in exact arithmetic. -/
def timespec.toDouble (ts : timespec) : Double :=
  Double.fin ((ts.tv_sec : ℚ) + (ts.tv_nsec : ℚ) / 1000000)

/-- A `ros::Time`, by the call that produced it. -/
inductive RosTime where
  /-- A time given by its two fields: the default `ros::Time()` is `raw 0 0`, and
  the readings of `ros::Time::now()` are of this form. -/
  | raw (sec nsec : Nat)
  /-- The result of `ros::Time(double t)`. -/
  | ofDouble (t : Double)
  /-- The result of `ros::Time(sec, nsec)` on the two fields of a `timespec`. -/
  | ofSecNsec (sec nsec : Int)
  deriving DecidableEq, Repr

instance : Inhabited RosTime := ⟨RosTime.raw 0 0⟩

/-- Assignment of an `int` to a `uint16` message field. -/
def toUInt16 (n : Int) : Nat := (n % 65536).toNat

/-- Conversion of a C++ `bool` to an integer. -/
def boolToInt (b : Bool) : Int := if b then 1 else 0

/-- The C++ call `v.resize(n)` of `std::vector`: keeps the first `n` elements and
pads with value-initialised elements. -/
def resize {α : Type} [Inhabited α] (v : List α) (n : Nat) : List α :=
  v.take n ++ List.replicate (n - v.length) default

/-- The C loop `for (int i = 0; i < n; ++i) body`, the loop body acting on a state. -/
def forLoop {σ : Type} (n : Nat) (body : Nat → σ → σ) (s : σ) : σ :=
  (List.range n).foldl (fun st i => body i st) s

/-! ## Constants of the headers

The headers `gps.h`, `gps_common/GPSStatus.h`, `sensor_msgs/NavSatStatus.h` and
`sensor_msgs/NavSatFix.h` are not among the sources.  The constants below have the
values that these headers give them. -/

/-- Value of `STATUS_NO_FIX` (`STATUS_UNK` from gpsd 3.23.1 on) in `gps.h`, which the
source renames to `GPSD_STATUS_NO_FIX`. -/
def GPSD_STATUS_NO_FIX : Int := 0

/-- Value of `STATUS_FIX` (`STATUS_GPS` from gpsd 3.23.1 on) in `gps.h`. -/
def GPSD_STATUS_FIX : Int := 1

/-- Value of `STATUS_DGPS_FIX` (`STATUS_DGPS` from gpsd 3.23.1 on) in `gps.h`. -/
def GPSD_STATUS_DGPS_FIX : Int := 2

/-- Constant `STATUS_NO_FIX` of the message `gps_common/GPSStatus`. -/
def GPSStatus.STATUS_NO_FIX : Int := -1

/-- Constant `STATUS_FIX` of the message `gps_common/GPSStatus`. -/
def GPSStatus.STATUS_FIX : Int := 0

/-- Constant `STATUS_DGPS_FIX` of the message `gps_common/GPSStatus`. -/
def GPSStatus.STATUS_DGPS_FIX : Int := 18

/-- Constant `STATUS_NO_FIX` of the message `sensor_msgs/NavSatStatus`. -/
def NavSatStatus.STATUS_NO_FIX : Int := -1

/-- Constant `STATUS_FIX` of the message `sensor_msgs/NavSatStatus`. -/
def NavSatStatus.STATUS_FIX : Int := 0

/-- Constant `STATUS_GBAS_FIX` of the message `sensor_msgs/NavSatStatus`. -/
def NavSatStatus.STATUS_GBAS_FIX : Int := 2

/-- Constant `SERVICE_GPS` of the message `sensor_msgs/NavSatStatus`. -/
def NavSatStatus.SERVICE_GPS : Nat := 1

/-- Constant `COVARIANCE_TYPE_UNKNOWN` of the message `sensor_msgs/NavSatFix`. -/
def NavSatFix.COVARIANCE_TYPE_UNKNOWN : Nat := 0

/-- Constant `COVARIANCE_TYPE_DIAGONAL_KNOWN` of the message `sensor_msgs/NavSatFix`. -/
def NavSatFix.COVARIANCE_TYPE_DIAGONAL_KNOWN : Nat := 2

/-! ## The daemon's snapshot -/

/-- Modelled from the spec: one slot of the daemon's satellite table (`satellite_t`
of `gps.h`, whose declaration is not among the sources), with the types of the
spec's `satelliteVisibleTable`: an integer PRN and float64 elevation, azimuth and
signal-to-noise; `used` is the unified per-satellite used flag. -/
structure satellite_t where
  PRN : Int := 0
  elevation : Double := default
  azimuth : Double := default
  ss : Double := default
  used : Bool := false
  deriving DecidableEq, Repr

instance : Inhabited satellite_t := ⟨{}⟩

/-- Modelled from the spec: `struct gps_fix_t` of `gps.h`, whose declaration is not among
the sources; the members that the source reads, floats as in the spec's
`RawFixSnapshot`. -/
structure gps_fix_t where
  /-- The member `fix.time` before generation 9 (`double`, NaN when absent). -/
  time : Double := Double.nan
  /-- The member `fix.time` from generation 9 on (`timespec`). -/
  time_ts : timespec := {}
  /-- The member `fix.status`, read from generation 10 on. -/
  status : Int := 0
  latitude : Double := Double.nan
  longitude : Double := Double.nan
  altitude : Double := Double.nan
  track : Double := Double.nan
  speed : Double := Double.nan
  climb : Double := Double.nan
  epx : Double := Double.nan
  epy : Double := Double.nan
  epv : Double := Double.nan
  epd : Double := Double.nan
  eps : Double := Double.nan
  epc : Double := Double.nan
  ept : Double := Double.nan
  eph : Double := Double.nan
  deriving DecidableEq, Repr

/-- Modelled from the spec: the member `dop` of `struct gps_data_t` (generations above 3),
the spec's `dilutionOfPrecision`. -/
structure dop_t where
  pdop : Double := Double.nan
  hdop : Double := Double.nan
  vdop : Double := Double.nan
  tdop : Double := Double.nan
  gdop : Double := Double.nan
  deriving DecidableEq, Repr

/-- Modelled from the spec: `struct gps_data_t` of `gps.h`, whose declaration is not among
the sources (the spec's `RawFixSnapshot`); the members that the source reads, of all
generations. -/
structure gps_data_t where
  /-- The member `online` before generation 9 (`double`). -/
  online : Double := default
  /-- The member `online` from generation 9 on (`timespec`). -/
  online_ts : timespec := {}
  /-- The member `status`, read before generation 10. -/
  status : Int := 0
  fix : gps_fix_t := {}
  dop : dop_t := {}
  pdop : Double := Double.nan
  hdop : Double := Double.nan
  vdop : Double := Double.nan
  tdop : Double := Double.nan
  gdop : Double := Double.nan
  epe : Double := Double.nan
  satellites_used : Int := 0
  satellites_visible : Int := 0
  /-- The member `satellites` of generation 3. -/
  satellites : Int := 0
  /-- The table `skyview[MAXCHANNELS]` (generations above 5). -/
  skyview : List satellite_t := []
  /-- The legacy array `used[MAXCHANNELS]`. -/
  used : List Int := []
  /-- The legacy array `PRN[MAXCHANNELS]`. -/
  PRN : List Int := []
  /-- The legacy array `elevation[MAXCHANNELS]`. -/
  elevation : List Double := []
  /-- The legacy array `azimuth[MAXCHANNELS]`. -/
  azimuth : List Double := []
  /-- The legacy array `ss[MAXCHANNELS]`. -/
  ss : List Double := []
  deriving DecidableEq, Repr

/-- A read `a[i]` of one of the daemon's C arrays.  Inside the array it is the `i`-th
element; a read past the end, which C leaves undefined, yields a zero element. -/
def readAt {α : Type} [Inhabited α] (a : List α) (i : Nat) : α := a.getD i default

/-! ## The published messages -/

/-- Modelled from the spec: the header of a record (timestamp and frame label), the
fields of `std_msgs/Header` that the source writes. -/
structure Header where
  stamp : RosTime := default
  frame_id : String := ""
  deriving DecidableEq, Repr

/-- Modelled from the spec: message `gps_common/GPSStatus`, whose declaration is not
among the sources; the fields that the source writes.  The two counts are `uint16`
fields, the status is an integer, and the elements of the arrays have the types of
`satellite_t`, so that a value of the table is carried over unchanged. -/
structure GPSStatus where
  header : Header := {}
  satellites_used : Nat := 0
  satellite_used_prn : List Int := []
  satellites_visible : Nat := 0
  satellite_visible_prn : List Int := []
  satellite_visible_z : List Double := []
  satellite_visible_azimuth : List Double := []
  satellite_visible_snr : List Double := []
  status : Int := 0
  deriving DecidableEq, Repr

/-- Modelled from the spec: message `gps_common/GPSFix` (the spec's `ExtendedFixRecord`),
whose declaration is not among the sources; the fields that the source writes. -/
structure GPSFix where
  header : Header := {}
  status : GPSStatus := {}
  latitude : Double := default
  longitude : Double := default
  altitude : Double := default
  track : Double := default
  speed : Double := default
  climb : Double := default
  time : Double := default
  gdop : Double := default
  pdop : Double := default
  hdop : Double := default
  vdop : Double := default
  tdop : Double := default
  err : Double := default
  err_vert : Double := default
  err_track : Double := default
  err_speed : Double := default
  err_climb : Double := default
  err_time : Double := default
  deriving DecidableEq, Repr

/-- Modelled from the spec: message `sensor_msgs/NavSatStatus`, the navigation status
and the service tag of the Geodetic record. -/
structure NavSatStatus where
  status : Int := 0
  service : Nat := 0
  deriving DecidableEq, Repr

/-- Modelled from the spec: message `sensor_msgs/NavSatFix` (the spec's
`GeodeticFixRecord`); the covariance is the row-major 3x3 matrix, nine entries. -/
structure NavSatFix where
  header : Header := {}
  status : NavSatStatus := {}
  latitude : Double := default
  longitude : Double := default
  altitude : Double := default
  position_covariance : List Double := List.replicate 9 default
  position_covariance_type : Nat := 0
  deriving DecidableEq, Repr

/-- The two publishers of `GPSDClient`, each with the messages it has published. -/
structure Bus where
  gps_fix_pub : List GPSFix := []
  navsat_fix_pub : List NavSatFix := []
  deriving DecidableEq, Repr

/-- The configuration members of class `GPSDClient`, with the defaults of its constructor. -/
structure GPSDClient where
  use_gps_time : Bool := true
  check_fix_by_variance : Bool := true
  frame_id : String := "gps"
  deriving DecidableEq, Repr

/-! ## The client -/

/-- The macro `SATS_VISIBLE`: `p->satellites_visible` from generation 4 on,
`p->satellites` on generation 3 (older generations are refused by `#error`). -/
def SATS_VISIBLE (api : Nat) (p : gps_data_t) : Int :=
  if api ≥ 4 then p.satellites_visible else p.satellites

/-- The status word that the source tests: `p->fix.status` from generation 10 on,
`p->status` before. -/
def status_word (api : Nat) (p : gps_data_t) : Int :=
  if api ≥ 10 then p.fix.status else p.status

/-- The first part of `GPSDClient::process_data_gps` (up to the end of the second
loop): the local `status` with its header stamp, the satellite counts and the
satellite arrays.  The argument `time` is the local `time`.  A write to a vector
element past its end, which C++ leaves undefined, changes nothing. -/
def process_data_gps_status (api : Nat) (time : RosTime) (p : gps_data_t) : GPSStatus :=
  let status : GPSStatus := {}
  let status := { status with header.stamp := time }
  let status := { status with satellites_used := toUInt16 p.satellites_used }
  let status := { status with
    satellite_used_prn := resize status.satellite_used_prn status.satellites_used }
  let status := forLoop status.satellites_used (fun i status =>
    if api > 5 then
      { status with
        satellite_used_prn := status.satellite_used_prn.set i (boolToInt (readAt p.skyview i).used) }
    else
      { status with satellite_used_prn := status.satellite_used_prn.set i (readAt p.used i) })
    status
  let status := { status with satellites_visible := toUInt16 (SATS_VISIBLE api p) }
  let status := { status with
    satellite_visible_prn := resize status.satellite_visible_prn status.satellites_visible
    satellite_visible_z := resize status.satellite_visible_z status.satellites_visible
    satellite_visible_azimuth := resize status.satellite_visible_azimuth status.satellites_visible
    satellite_visible_snr := resize status.satellite_visible_snr status.satellites_visible }
  forLoop (SATS_VISIBLE api p).toNat (fun i status =>
    if api > 5 then
      { status with
        satellite_visible_prn := status.satellite_visible_prn.set i (readAt p.skyview i).PRN
        satellite_visible_z := status.satellite_visible_z.set i (readAt p.skyview i).elevation
        satellite_visible_azimuth :=
          status.satellite_visible_azimuth.set i (readAt p.skyview i).azimuth
        satellite_visible_snr := status.satellite_visible_snr.set i (readAt p.skyview i).ss }
    else
      { status with
        satellite_visible_prn := status.satellite_visible_prn.set i (readAt p.PRN i)
        satellite_visible_z := status.satellite_visible_z.set i (readAt p.elevation i)
        satellite_visible_azimuth := status.satellite_visible_azimuth.set i (readAt p.azimuth i)
        satellite_visible_snr := status.satellite_visible_snr.set i (readAt p.ss i) })
    status

/-- The method `GPSDClient::process_data_gps`.  The argument `now` is the value that
its call of `ros::Time::now()` returns.  The local `status` is built by
`process_data_gps_status`.  Consecutive assignments to distinct fields of one message
are written as one update, and the assignment `fix.status = status`, which follows the
conditional, is written at the end of each of its branches. -/
def process_data_gps (api : Nat) (self : GPSDClient) (now : RosTime) (p : gps_data_t)
    (bus : Bus) : Bus :=
  let time := now
  let fix : GPSFix := {}
  let fix := { fix with header := { stamp := time, frame_id := self.frame_id } }
  let status := process_data_gps_status api time p
  let fix : GPSFix :=
    if (Int.land (status_word api p) GPSD_STATUS_FIX != 0)
        && !(self.check_fix_by_variance && p.fix.epx.isnan) then
      let status := { status with status := GPSStatus.STATUS_FIX }
      let status :=
        if api ≠ 6 then
          if Int.land (status_word api p) GPSD_STATUS_DGPS_FIX != 0 then
            { status with status := Int.lor status.status GPSStatus.STATUS_DGPS_FIX }
          else status
        else status
      { fix with
        time := if api ≥ 9 then p.fix.time_ts.toDouble else p.fix.time
        latitude := p.fix.latitude
        longitude := p.fix.longitude
        altitude := p.fix.altitude
        track := p.fix.track
        speed := p.fix.speed
        climb := p.fix.climb
        pdop := if api > 3 then p.dop.pdop else p.pdop
        hdop := if api > 3 then p.dop.hdop else p.hdop
        vdop := if api > 3 then p.dop.vdop else p.vdop
        tdop := if api > 3 then p.dop.tdop else p.tdop
        gdop := if api > 3 then p.dop.gdop else p.gdop
        err := if api < 8 then p.epe else p.fix.eph
        err_vert := p.fix.epv
        err_track := p.fix.epd
        err_speed := p.fix.eps
        err_climb := p.fix.epc
        err_time := p.fix.ept
        status := status }
    else
      let status := { status with status := GPSStatus.STATUS_NO_FIX }
      { fix with status := status }
  { bus with gps_fix_pub := bus.gps_fix_pub ++ [fix] }

/-- The method `GPSDClient::process_data_navsat`.  The argument `now` is the value that
its call of `ros::Time::now()` returns if it is made. -/
def process_data_navsat (api : Nat) (self : GPSDClient) (now : RosTime) (p : gps_data_t)
    (bus : Bus) : Bus :=
  let fix : NavSatFix := {}
  let fix :=
    if api ≥ 9 then
      if self.use_gps_time && (p.online_ts.tv_sec != 0 || p.online_ts.tv_nsec != 0) then
        { fix with header.stamp := RosTime.ofSecNsec p.fix.time_ts.tv_sec p.fix.time_ts.tv_nsec }
      else
        { fix with header.stamp := now }
    else
      if self.use_gps_time && !p.fix.time.isnan then
        { fix with header.stamp := RosTime.ofDouble p.fix.time }
      else
        { fix with header.stamp := now }
  let fix := { fix with header.frame_id := self.frame_id }
  let fix :=
    if status_word api p = GPSD_STATUS_NO_FIX then
      { fix with status.status := NavSatStatus.STATUS_NO_FIX }
    else if status_word api p = GPSD_STATUS_FIX then
      { fix with status.status := NavSatStatus.STATUS_FIX }
    else if api ≠ 6 ∧ status_word api p = GPSD_STATUS_DGPS_FIX then
      { fix with status.status := NavSatStatus.STATUS_GBAS_FIX }
    else fix
  let fix := { fix with status.service := NavSatStatus.SERVICE_GPS }
  let fix := { fix with latitude := p.fix.latitude }
  let fix := { fix with longitude := p.fix.longitude }
  let fix := { fix with altitude := p.fix.altitude }
  if p.fix.epx.isnan && self.check_fix_by_variance then
    bus
  else
    let fix := { fix with position_covariance := fix.position_covariance.set 0 p.fix.epx }
    let fix := { fix with position_covariance := fix.position_covariance.set 4 p.fix.epy }
    let fix := { fix with position_covariance := fix.position_covariance.set 8 p.fix.epv }
    let fix := { fix with
      position_covariance_type :=
        if p.fix.epx.isnan then NavSatFix.COVARIANCE_TYPE_UNKNOWN
        else NavSatFix.COVARIANCE_TYPE_DIAGONAL_KNOWN }
    { bus with navsat_fix_pub := bus.navsat_fix_pub ++ [fix] }

/-- The method `GPSDClient::process_data`; `none` is the null pointer.  The arguments
`now_gps` and `now_navsat` are the clock readings of the two builders. -/
def process_data (api : Nat) (self : GPSDClient) (now_gps now_navsat : RosTime)
    (p : Option gps_data_t) (bus : Bus) : Bus :=
  match p with
  | none => bus
  | some p =>
    if (if api ≥ 9 then p.online_ts.tv_sec == 0 && p.online_ts.tv_nsec == 0
        else !p.online.toBool) then
      bus
    else
      process_data_navsat api self now_navsat p (process_data_gps api self now_gps p bus)

/-! ## Observations used in the statements -/

/-- The online indicator of a snapshot is unset, as `process_data` tests it: both
fields of the `timespec` are zero from generation 9 on, the `double` is zero before. -/
def online_unset (api : Nat) (p : gps_data_t) : Prop :=
  if 9 ≤ api then p.online_ts.tv_sec = 0 ∧ p.online_ts.tv_nsec = 0
  else p.online = Double.fin 0

instance (api : Nat) (p : gps_data_t) : Decidable (online_unset api p) := by
  unfold online_unset; infer_instance

/-- The message that one call of `process_data_gps` publishes. -/
def extended_record (api : Nat) (self : GPSDClient) (now : RosTime) (p : gps_data_t) : GPSFix :=
  ((process_data_gps api self now p {}).gps_fix_pub).headD {}

/-- The message that one call of `process_data_navsat` publishes, if it publishes one. -/
def geodetic_record (api : Nat) (self : GPSDClient) (now : RosTime) (p : gps_data_t) :
    Option NavSatFix :=
  ((process_data_navsat api self now p {}).navsat_fix_pub).head?

/-- A snapshot of generation 10 or later: online, status word 3 (base and differential
bit set), known variances. -/
def snapshot_both_bits : gps_data_t :=
  { online_ts := { tv_sec := 7 }, fix := { status := 3, epx := Double.fin 2 } }

/-- A snapshot before generation 10: online, status word 2 (the daemon's code of a
differential fix), known variances. -/
def snapshot_dgps_code : gps_data_t :=
  { online := Double.fin 1, status := 2, fix := { epx := Double.fin 2 } }

/-- The classifier's tri-state fix status (the `FixStatus` of the specification). -/
inductive FixStatus where
  | NoFix
  | Fix
  | DifferentialFix
  deriving DecidableEq, Repr

/-- The fix status that the status code of an Extended record stands for. -/
def FixStatus.ofGPSStatus (s : Int) : Option FixStatus :=
  if s = GPSStatus.STATUS_NO_FIX then some FixStatus.NoFix
  else if s = GPSStatus.STATUS_FIX then some FixStatus.Fix
  else if s = Int.lor GPSStatus.STATUS_FIX GPSStatus.STATUS_DGPS_FIX then
    some FixStatus.DifferentialFix
  else none

/-- The status mapping of the specification: `NoFix` to `STATUS_NO_FIX`, `Fix` to
`STATUS_FIX`, `DifferentialFix` to `STATUS_GBAS_FIX` of `NavSatStatus`. -/
def FixStatus.toNavSatStatus : FixStatus → Int
  | FixStatus.NoFix => NavSatStatus.STATUS_NO_FIX
  | FixStatus.Fix => NavSatStatus.STATUS_FIX
  | FixStatus.DifferentialFix => NavSatStatus.STATUS_GBAS_FIX

/-- A snapshot before generation 9 in the legacy layout: online, status word 2, a
valid position, one satellite used and two visible. -/
def snapshot_two_sats : gps_data_t :=
  { online := Double.fin 1, status := 2
    fix := { time := Double.fin 100, latitude := Double.fin 37, longitude := Double.fin (-122)
             altitude := Double.fin 10, epx := Double.fin 2, epy := Double.fin 3
             epv := Double.fin 4 }
    satellites_used := 1, satellites_visible := 2
    used := [7], PRN := [7, 9]
    elevation := [Double.fin 40, Double.fin 15]
    azimuth := [Double.fin 120, Double.fin 300]
    ss := [Double.fin 38, Double.fin 22] }

/-- A snapshot that is online in every generation, with status word 1 (a plain fix) and
known variances, whose fix time is absent: NaN in the `double` form, zero in the
`timespec` form. -/
def snapshot_no_time : gps_data_t :=
  { online := Double.fin 1, online_ts := { tv_sec := 7 }, status := 1
    fix := { status := 1, time := Double.nan, time_ts := { tv_sec := 0, tv_nsec := 0 }
             epx := Double.fin 2, epy := Double.fin 2, epv := Double.fin 4 } }

/-- The number of slots of the daemon's satellite table in the layout that the
generation reads: the unified table `skyview` above generation 5, the shortest of the
four legacy arrays otherwise. -/
def table_size (api : Nat) (p : gps_data_t) : Nat :=
  if api > 5 then p.skyview.length
  else min (min p.PRN.length p.elevation.length) (min p.azimuth.length p.ss.length)

/-- A snapshot of generation 9 or later in the unified layout: online, status word 1,
two satellites used, three visible; the first and the third slot are used. -/
def snapshot_skyview : gps_data_t :=
  { online_ts := { tv_sec := 7 }, status := 1
    fix := { status := 1, time_ts := { tv_sec := 100, tv_nsec := 500000000 }
             latitude := Double.fin 37, longitude := Double.fin (-122)
             altitude := Double.fin 10, epx := Double.fin 2, epy := Double.fin 3
             epv := Double.fin 4 }
    satellites_used := 2, satellites_visible := 3
    skyview :=
      [{ PRN := 5, elevation := Double.fin 40, azimuth := Double.fin 120
         ss := Double.fin 38, used := true },
       { PRN := 7, elevation := Double.fin 15, azimuth := Double.fin 300
         ss := Double.fin 22, used := false },
       { PRN := 9, elevation := Double.fin 62, azimuth := Double.fin 45
         ss := Double.fin 41, used := true }] }

/-- A snapshot before generation 10: online, status word 3 (base and differential bit
set, none of the three codes of the status switch), known variances. -/
def snapshot_code_three : gps_data_t :=
  { online := Double.fin 1, status := 3, fix := { epx := Double.fin 2 } }

/-- The snapshot `snapshot_two_sats` with status word 0: a position, but no fix. -/
def snapshot_position_no_fix : gps_data_t :=
  { snapshot_two_sats with status := 0 }

/-- The snapshot `snapshot_no_time` with NaN `fix.epx`: status OK, variance unknown. -/
def snapshot_nan_variance : gps_data_t :=
  { snapshot_no_time with fix := { snapshot_no_time.fix with epx := Double.nan } }

/-! ## Lemmas on the control flow -/

theorem Double.toBool_eq_false (d : Double) : d.toBool = false ↔ d = Double.fin 0 := by
  cases d <;> simp [Double.toBool]

theorem Double.isnan_iff (d : Double) : d.isnan = true ↔ d = Double.nan := by
  cases d <;> simp [Double.isnan]

/-- An offline snapshot leaves the bus as it is. -/
theorem process_data_of_unset (api : Nat) (self : GPSDClient) (n1 n2 : RosTime)
    (p : gps_data_t) (bus : Bus) (h : online_unset api p) :
    process_data api self n1 n2 (some p) bus = bus := by
  unfold online_unset at h
  unfold process_data
  by_cases h9 : 9 ≤ api
  · simp only [h9, if_true] at h
    simp [h9, h.1, h.2]
  · simp only [h9, if_false] at h
    simp [h9, h, Double.toBool]

/-- An online snapshot goes through both builders, the Extended one first. -/
theorem process_data_of_set (api : Nat) (self : GPSDClient) (n1 n2 : RosTime)
    (p : gps_data_t) (bus : Bus) (h : ¬ online_unset api p) :
    process_data api self n1 n2 (some p) bus
      = process_data_navsat api self n2 p (process_data_gps api self n1 p bus) := by
  unfold online_unset at h
  unfold process_data
  by_cases h9 : 9 ≤ api
  · simp only [h9, if_true] at h
    simp only [ge_iff_le, h9, if_true]
    rw [if_neg]
    simpa using h
  · simp only [h9, if_false] at h
    simp only [ge_iff_le, h9, if_false]
    rw [if_neg]
    simpa [Double.toBool_eq_false] using h

/-- The Extended builder appends exactly one message. -/
theorem process_data_gps_eq (api : Nat) (self : GPSDClient) (now : RosTime) (p : gps_data_t)
    (bus : Bus) :
    process_data_gps api self now p bus
      = { bus with gps_fix_pub := bus.gps_fix_pub ++ [extended_record api self now p] } := by
  simp [extended_record, process_data_gps]

/-- The Geodetic builder appends one message or none. -/
theorem process_data_navsat_eq (api : Nat) (self : GPSDClient) (now : RosTime) (p : gps_data_t)
    (bus : Bus) :
    process_data_navsat api self now p bus =
      match geodetic_record api self now p with
      | none => bus
      | some r => { bus with navsat_fix_pub := bus.navsat_fix_pub ++ [r] } := by
  unfold geodetic_record process_data_navsat
  by_cases h : (p.fix.epx.isnan && self.check_fix_by_variance) = true
  · simp [h]
  · simp [h]

/-- The Geodetic builder returns early exactly on NaN variance under the variance check. -/
theorem geodetic_record_eq_none (api : Nat) (self : GPSDClient) (now : RosTime)
    (p : gps_data_t) :
    geodetic_record api self now p = none
      ↔ (p.fix.epx.isnan = true ∧ self.check_fix_by_variance = true) := by
  unfold geodetic_record process_data_navsat
  by_cases h : (p.fix.epx.isnan && self.check_fix_by_variance) = true
  · simp [h]; simpa using h
  · simp [h]; simpa using h

theorem lor_fix_dgps : Int.lor GPSStatus.STATUS_FIX GPSStatus.STATUS_DGPS_FIX = 18 := by
  decide

/-- The status of the Extended record, as a function of the status word. -/
theorem extended_status (api : Nat) (self : GPSDClient) (now : RosTime) (p : gps_data_t) :
    (extended_record api self now p).status.status =
      if (Int.land (status_word api p) GPSD_STATUS_FIX != 0)
          && !(self.check_fix_by_variance && p.fix.epx.isnan) then
        (if api ≠ 6 ∧ Int.land (status_word api p) GPSD_STATUS_DGPS_FIX != 0 then 18 else 0)
      else -1 := by
  simp only [extended_record, process_data_gps, List.nil_append, List.headD_cons]
  split
  · by_cases h6 : api = 6
    · simp [h6, GPSStatus.STATUS_FIX]
    · by_cases hd : (Int.land (status_word api p) GPSD_STATUS_DGPS_FIX != 0) = true
      · simp only [h6, hd, ne_eq, not_false_eq_true, if_true, and_self, lor_fix_dgps]
      · simp [h6, hd, GPSStatus.STATUS_FIX]
  · simp [GPSStatus.STATUS_NO_FIX]

/-- What an online snapshot adds to the bus. -/
theorem process_data_online (api : Nat) (self : GPSDClient) (n1 n2 : RosTime)
    (p : gps_data_t) (bus : Bus) (h : ¬ online_unset api p) :
    (process_data api self n1 n2 (some p) bus).gps_fix_pub
        = bus.gps_fix_pub ++ [extended_record api self n1 p]
      ∧ (process_data api self n1 n2 (some p) bus).navsat_fix_pub
        = bus.navsat_fix_pub ++ (geodetic_record api self n2 p).toList := by
  rw [process_data_of_set api self n1 n2 p bus h, process_data_navsat_eq, process_data_gps_eq]
  cases geodetic_record api self n2 p <;> simp

/-! ## The claims -/

/-- C1: for every API generation and every configuration, `process_data` on a snapshot
that is null or whose online indicator is unset publishes no record on the extended
channel and no record on the geodetic channel. -/
theorem C1_offline_publishes_nothing (api : Nat) (_hapi : 3 ≤ api) (self : GPSDClient)
    (now_gps now_navsat : RosTime) (p : Option gps_data_t) (bus : Bus)
    (h : ∀ q, p = some q → online_unset api q) :
    (process_data api self now_gps now_navsat p bus).gps_fix_pub = bus.gps_fix_pub
      ∧ (process_data api self now_gps now_navsat p bus).navsat_fix_pub
          = bus.navsat_fix_pub := by
  cases p with
  | none => exact ⟨rfl, rfl⟩
  | some q => rw [process_data_of_unset api self now_gps now_navsat q bus (h q rfl)]; exact ⟨rfl, rfl⟩

/-- Witness of C1: generation 9, default configuration, a snapshot whose `online`
timespec is zero although its status word reports a fix. -/
theorem C1_offline_publishes_nothing_witness :
    (process_data 9 {} (RosTime.raw 10 0) (RosTime.raw 10 5)
        (some { status := 1, fix := { status := 1 } }) {}).gps_fix_pub = []
      ∧ (process_data 9 {} (RosTime.raw 10 0) (RosTime.raw 10 5)
        (some { status := 1, fix := { status := 1 } }) {}).navsat_fix_pub = [] :=
  C1_offline_publishes_nothing 9 (by decide) {} (RosTime.raw 10 0) (RosTime.raw 10 5)
    (some { status := 1, fix := { status := 1 } }) {}
    (by intro q hq; cases hq; decide)

/-- C2: for every online snapshot, if `check_fix_by_variance` is true and `fix.epx` is
NaN, the Extended record that is published has status `GPSStatus::STATUS_NO_FIX`,
whatever the status code, and no Geodetic record is published. -/
theorem C2_nan_variance_forces_no_fix (api : Nat) (_hapi : 3 ≤ api) (self : GPSDClient)
    (now_gps now_navsat : RosTime) (p : gps_data_t) (bus : Bus)
    (hon : ¬ online_unset api p) (hcfv : self.check_fix_by_variance = true)
    (hnan : p.fix.epx = Double.nan) :
    (∃ r : GPSFix,
        (process_data api self now_gps now_navsat (some p) bus).gps_fix_pub
            = bus.gps_fix_pub ++ [r]
          ∧ r.status.status = GPSStatus.STATUS_NO_FIX)
      ∧ (process_data api self now_gps now_navsat (some p) bus).navsat_fix_pub
          = bus.navsat_fix_pub := by
  obtain ⟨hg, hn⟩ := process_data_online api self now_gps now_navsat p bus hon
  refine ⟨⟨_, hg, ?_⟩, ?_⟩
  · rw [extended_status]
    simp [hcfv, hnan, Double.isnan, GPSStatus.STATUS_NO_FIX]
  · have : geodetic_record api self now_navsat p = none :=
      (geodetic_record_eq_none api self now_navsat p).2 ⟨by simp [hnan, Double.isnan], hcfv⟩
    rw [hn, this]; simp

/-- Witness of C2: generation 10, default configuration, status word 3 (base and
differential bit set), NaN `fix.epx`. -/
theorem C2_nan_variance_forces_no_fix_witness :
    (∃ r : GPSFix,
        (process_data 10 {} (RosTime.raw 10 0) (RosTime.raw 10 5)
            (some { online_ts := { tv_sec := 7 }, fix := { status := 3 } }) {}).gps_fix_pub
            = ({} : Bus).gps_fix_pub ++ [r]
          ∧ r.status.status = GPSStatus.STATUS_NO_FIX)
      ∧ (process_data 10 {} (RosTime.raw 10 0) (RosTime.raw 10 5)
            (some { online_ts := { tv_sec := 7 }, fix := { status := 3 } }) {}).navsat_fix_pub
          = ({} : Bus).navsat_fix_pub :=
  C2_nan_variance_forces_no_fix 10 (by decide) {} (RosTime.raw 10 0) (RosTime.raw 10 5)
    { online_ts := { tv_sec := 7 }, fix := { status := 3 } } {} (by decide) rfl rfl

/-- C3: for every API generation other than 6 and every online snapshot to which the
variance override does not apply, if the status code has the base fix bit set then
the Extended record's status is `STATUS_FIX | STATUS_DGPS_FIX` when the differential
bit is set and exactly `STATUS_FIX` when it is unset. -/
theorem C3_base_and_differential_bits (api : Nat) (_hapi : 3 ≤ api) (h6 : api ≠ 6)
    (self : GPSDClient) (now_gps now_navsat : RosTime) (p : gps_data_t) (bus : Bus)
    (hon : ¬ online_unset api p)
    (hvar : ¬ (self.check_fix_by_variance = true ∧ p.fix.epx = Double.nan))
    (hbase : Int.land (status_word api p) GPSD_STATUS_FIX ≠ 0) :
    ∃ r : GPSFix,
      (process_data api self now_gps now_navsat (some p) bus).gps_fix_pub
          = bus.gps_fix_pub ++ [r]
        ∧ r.status.status =
            if Int.land (status_word api p) GPSD_STATUS_DGPS_FIX ≠ 0 then
              Int.lor GPSStatus.STATUS_FIX GPSStatus.STATUS_DGPS_FIX
            else GPSStatus.STATUS_FIX := by
  obtain ⟨hg, -⟩ := process_data_online api self now_gps now_navsat p bus hon
  refine ⟨_, hg, ?_⟩
  rw [extended_status, lor_fix_dgps]
  have hv : (self.check_fix_by_variance && p.fix.epx.isnan) = false := by
    rw [Bool.and_eq_false_iff]
    by_cases hc : self.check_fix_by_variance = true
    · right
      have : ¬ p.fix.epx.isnan = true := fun hh => hvar ⟨hc, (Double.isnan_iff _).1 hh⟩
      simpa using this
    · left; simpa using hc
  simp [hv, hbase, h6, GPSStatus.STATUS_FIX]

/-- Witness of C3: generation 10 with status word 3 gives 18, the code of a
differential fix. -/
theorem C3_base_and_differential_bits_witness :
    ∃ r : GPSFix,
      (process_data 10 {} (RosTime.raw 10 0) (RosTime.raw 10 5)
          (some snapshot_both_bits) {}).gps_fix_pub
          = ({} : Bus).gps_fix_pub ++ [r]
        ∧ r.status.status =
            if Int.land (status_word 10 snapshot_both_bits) GPSD_STATUS_DGPS_FIX ≠ 0 then
              Int.lor GPSStatus.STATUS_FIX GPSStatus.STATUS_DGPS_FIX
            else GPSStatus.STATUS_FIX :=
  C3_base_and_differential_bits 10 (by decide) (by decide) {} (RosTime.raw 10 0)
    (RosTime.raw 10 5) snapshot_both_bits {} (by decide) (by decide) (by decide)

/-- C4, evaluated where it fails: generation 5, default configuration, an online
snapshot with known variances.  With status word 2 the Extended record is published
with `STATUS_NO_FIX` (fix status `NoFix`) and the Geodetic record with
`STATUS_GBAS_FIX`, which is not the image of `NoFix`; with status word 3 the Extended
record is a `DifferentialFix` and the Geodetic record has `STATUS_FIX`. -/
theorem C4_builders_disagree :
    ((process_data 5 {} (RosTime.raw 10 0) (RosTime.raw 10 5)
        (some snapshot_dgps_code) {}).gps_fix_pub.map
          (fun r => FixStatus.ofGPSStatus r.status.status) = [some FixStatus.NoFix]
      ∧ (process_data 5 {} (RosTime.raw 10 0) (RosTime.raw 10 5)
        (some snapshot_dgps_code) {}).navsat_fix_pub.map (fun g => g.status.status)
          = [NavSatStatus.STATUS_GBAS_FIX]
      ∧ NavSatStatus.STATUS_GBAS_FIX ≠ FixStatus.toNavSatStatus FixStatus.NoFix)
    ∧ ((process_data 5 {} (RosTime.raw 10 0) (RosTime.raw 10 5)
        (some { snapshot_dgps_code with status := 3 }) {}).gps_fix_pub.map
          (fun r => FixStatus.ofGPSStatus r.status.status) = [some FixStatus.DifferentialFix]
      ∧ (process_data 5 {} (RosTime.raw 10 0) (RosTime.raw 10 5)
        (some { snapshot_dgps_code with status := 3 }) {}).navsat_fix_pub.map
          (fun g => g.status.status) = [NavSatStatus.STATUS_FIX]
      ∧ NavSatStatus.STATUS_FIX ≠ FixStatus.toNavSatStatus FixStatus.DifferentialFix) := by
  decide

theorem forLoop_succ {σ : Type} (n : Nat) (body : Nat → σ → σ) (s : σ) :
    forLoop (n + 1) body s = body n (forLoop n body s) := by
  simp [forLoop, List.range_succ]

/-- A field that no iteration changes keeps its value through the loop. -/
theorem forLoop_keeps {σ α : Type} (proj : σ → α) (body : Nat → σ → σ)
    (h : ∀ i s, proj (body i s) = proj s) (n : Nat) (s : σ) :
    proj (forLoop n body s) = proj s := by
  induction n with
  | zero => rfl
  | succ k ih => rw [forLoop_succ, h, ih]

/-- A list field that iteration `i` changes by `set i (f i)` ends with its first `n`
present slots filled from `f`. -/
theorem forLoop_fills {σ α : Type} (proj : σ → List α) (f : Nat → α) (body : Nat → σ → σ)
    (h : ∀ i s, proj (body i s) = (proj s).set i (f i)) (n : Nat) (s : σ) (j : Nat) :
    (proj (forLoop n body s))[j]?
      = if j < n then (proj s)[j]?.map (fun _ => f j) else (proj s)[j]? := by
  induction n with
  | zero => simp [forLoop]
  | succ k ih =>
    rw [forLoop_succ, h, List.getElem?_set, ih]
    by_cases hjk : k = j
    · subst hjk
      have hlen : (proj (forLoop k body s)).length = (proj s).length := by
        clear ih
        induction k with
        | zero => rfl
        | succ m ihm => rw [forLoop_succ, h, List.length_set, ihm]
      simp only [if_true, hlen, Nat.lt_succ_self, lt_self_iff_false, if_false]
      by_cases hl : k < (proj s).length
      · simp [hl, List.getElem?_eq_getElem hl]
      · simp [hl, List.getElem?_eq_none (Nat.le_of_not_lt hl)]
    · have : (j < k + 1) ↔ (j < k) := by omega
      simp [hjk, this]

theorem process_data_gps_status_counts (api : Nat) (time : RosTime) (p : gps_data_t) :
    (process_data_gps_status api time p).satellites_used = toUInt16 p.satellites_used
      ∧ (process_data_gps_status api time p).satellites_visible
          = toUInt16 (SATS_VISIBLE api p) := by
  unfold process_data_gps_status
  constructor
  · rw [forLoop_keeps GPSStatus.satellites_used _ (by intro i s; split <;> rfl)]
    simp only
    rw [forLoop_keeps GPSStatus.satellites_used _ (by intro i s; split <;> rfl)]
  · rw [forLoop_keeps GPSStatus.satellites_visible _ (by intro i s; split <;> rfl)]

/-- The status part of the Extended record but for the status code. -/
theorem extended_record_status (api : Nat) (self : GPSDClient) (now : RosTime)
    (p : gps_data_t) :
    (extended_record api self now p).status
      = { process_data_gps_status api now p with
          status := (extended_record api self now p).status.status } := by
  simp only [extended_record, process_data_gps, List.nil_append, List.headD_cons]
  split
  · split
    · split <;> rfl
    · rfl
  · rfl
/-- The Geodetic record in closed form, when the builder does not return early. -/
theorem geodetic_record_eq_some (api : Nat) (self : GPSDClient) (now : RosTime)
    (p : gps_data_t) (hc : (p.fix.epx.isnan && self.check_fix_by_variance) = false) :
    geodetic_record api self now p = some
      { header :=
          { stamp :=
              if api ≥ 9 then
                if self.use_gps_time && (p.online_ts.tv_sec != 0 || p.online_ts.tv_nsec != 0)
                then RosTime.ofSecNsec p.fix.time_ts.tv_sec p.fix.time_ts.tv_nsec
                else now
              else
                if self.use_gps_time && !p.fix.time.isnan then RosTime.ofDouble p.fix.time
                else now
            frame_id := self.frame_id }
        status :=
          { status :=
              if status_word api p = GPSD_STATUS_NO_FIX then NavSatStatus.STATUS_NO_FIX
              else if status_word api p = GPSD_STATUS_FIX then NavSatStatus.STATUS_FIX
              else if api ≠ 6 ∧ status_word api p = GPSD_STATUS_DGPS_FIX then
                NavSatStatus.STATUS_GBAS_FIX
              else 0
            service := NavSatStatus.SERVICE_GPS }
        latitude := p.fix.latitude
        longitude := p.fix.longitude
        altitude := p.fix.altitude
        position_covariance :=
          [p.fix.epx, Double.fin 0, Double.fin 0, Double.fin 0, p.fix.epy, Double.fin 0,
           Double.fin 0, Double.fin 0, p.fix.epv]
        position_covariance_type :=
          if p.fix.epx.isnan then NavSatFix.COVARIANCE_TYPE_UNKNOWN
          else NavSatFix.COVARIANCE_TYPE_DIAGONAL_KNOWN } := by
  unfold geodetic_record process_data_navsat
  simp only [hc, Bool.false_eq_true, if_false, List.nil_append, List.head?_cons]
  split_ifs <;> rfl

/-- A record that one call of the Geodetic builder appends is its `geodetic_record`. -/
theorem geodetic_record_of_published (api : Nat) (self : GPSDClient) (now : RosTime)
    (p : gps_data_t) (bus : Bus) (g : NavSatFix)
    (h : (process_data_navsat api self now p bus).navsat_fix_pub
          = bus.navsat_fix_pub ++ [g]) :
    geodetic_record api self now p = some g := by
  rw [process_data_navsat_eq] at h
  cases hg : geodetic_record api self now p with
  | none =>
    rw [hg] at h
    have := congrArg List.length h
    simp at this
  | some r =>
    rw [hg] at h
    have := List.append_cancel_left h
    simp at this
    rw [this]

/-- A published Geodetic record is the closed form, and the early return was not taken. -/
theorem geodetic_record_cases (api : Nat) (self : GPSDClient) (now : RosTime)
    (p : gps_data_t) (g : NavSatFix) (h : geodetic_record api self now p = some g) :
    (p.fix.epx.isnan && self.check_fix_by_variance) = false := by
  by_cases hc : (p.fix.epx.isnan && self.check_fix_by_variance) = true
  · have hn := (geodetic_record_eq_none api self now p).2 (by simpa using hc)
    rw [hn] at h
    cases h
  · simpa using hc
/-- What an online snapshot adds to the bus when the Geodetic builder publishes. -/
theorem process_data_online_some (api : Nat) (self : GPSDClient) (n1 n2 : RosTime)
    (p : gps_data_t) (bus : Bus) (g : NavSatFix) (h : ¬ online_unset api p)
    (hg : geodetic_record api self n2 p = some g) :
    process_data api self n1 n2 (some p) bus
      = { gps_fix_pub := bus.gps_fix_pub ++ [extended_record api self n1 p]
          navsat_fix_pub := bus.navsat_fix_pub ++ [g] } := by
  rw [process_data_of_set api self n1 n2 p bus h, process_data_navsat_eq, process_data_gps_eq,
    hg]

/-- C6: when `check_fix_by_variance` is false, changing `fix.epx` of an online
snapshot to any other value, NaN or not, changes neither the status of the Extended
record nor the navigation status of the Geodetic record, and both records are
published for both snapshots. -/
theorem C6_variance_irrelevant_without_check (api : Nat) (_hapi : 3 ≤ api)
    (self : GPSDClient) (now_gps now_navsat : RosTime) (p : gps_data_t) (e : Double)
    (bus : Bus) (hon : ¬ online_unset api p) (hcfv : self.check_fix_by_variance = false) :
    ∃ (r1 r2 : GPSFix) (g1 g2 : NavSatFix),
      process_data api self now_gps now_navsat (some p) bus
          = { gps_fix_pub := bus.gps_fix_pub ++ [r1]
              navsat_fix_pub := bus.navsat_fix_pub ++ [g1] }
        ∧ process_data api self now_gps now_navsat
              (some { p with fix := { p.fix with epx := e } }) bus
            = { gps_fix_pub := bus.gps_fix_pub ++ [r2]
                navsat_fix_pub := bus.navsat_fix_pub ++ [g2] }
        ∧ r1.status.status = r2.status.status
        ∧ g1.status.status = g2.status.status := by
  have hon2 : ¬ online_unset api { p with fix := { p.fix with epx := e } } := hon
  have hc1 : (p.fix.epx.isnan && self.check_fix_by_variance) = false := by simp [hcfv]
  have hc2 : (({ p with fix := { p.fix with epx := e } } : gps_data_t).fix.epx.isnan
      && self.check_fix_by_variance) = false := by simp [hcfv]
  refine ⟨_, _, _, _,
    process_data_online_some api self now_gps now_navsat p bus _ hon
      (geodetic_record_eq_some api self now_navsat p hc1),
    process_data_online_some api self now_gps now_navsat _ bus _ hon2
      (geodetic_record_eq_some api self now_navsat _ hc2), ?_, ?_⟩
  · rw [extended_status, extended_status]
    simp [hcfv, status_word]
  · rfl

/-- Witness of C6: generation 10 without the variance check, `fix.epx` changed from 2
to NaN. -/
theorem C6_variance_irrelevant_without_check_witness :
    ∃ (r1 r2 : GPSFix) (g1 g2 : NavSatFix),
      process_data 10 { check_fix_by_variance := false } (RosTime.raw 10 0)
            (RosTime.raw 10 5) (some snapshot_both_bits) {}
          = { gps_fix_pub := ({} : Bus).gps_fix_pub ++ [r1]
              navsat_fix_pub := ({} : Bus).navsat_fix_pub ++ [g1] }
        ∧ process_data 10 { check_fix_by_variance := false } (RosTime.raw 10 0)
              (RosTime.raw 10 5)
              (some { snapshot_both_bits with
                      fix := { snapshot_both_bits.fix with epx := Double.nan } }) {}
            = { gps_fix_pub := ({} : Bus).gps_fix_pub ++ [r2]
                navsat_fix_pub := ({} : Bus).navsat_fix_pub ++ [g2] }
        ∧ r1.status.status = r2.status.status
        ∧ g1.status.status = g2.status.status :=
  C6_variance_irrelevant_without_check 10 (by decide) { check_fix_by_variance := false }
    (RosTime.raw 10 0) (RosTime.raw 10 5) snapshot_both_bits Double.nan {} (by decide) rfl

/-- C7, as stated, fails: generation 5, default configuration, `fix.epx = 2` and
`fix.epy = 3`; the record is published and entry 4 of its covariance is not
`fix.epx`. -/
theorem C7_entry_four_is_not_epx :
    (process_data_navsat 5 {} (RosTime.raw 10 5) snapshot_two_sats {}).navsat_fix_pub ≠ []
      ∧ ¬ ∀ g ∈ (process_data_navsat 5 {} (RosTime.raw 10 5)
                  snapshot_two_sats {}).navsat_fix_pub,
          g.position_covariance[4]? = some snapshot_two_sats.fix.epx := by
  decide

/-- C7, amended: in every Geodetic record that `process_data_navsat` publishes, the
row-major covariance has `fix.epx` at entry 0, `fix.epy` at entry 4, `fix.epv` at
entry 8 and zero at the six other entries. -/
theorem C7_covariance_diagonal (api : Nat) (self : GPSDClient) (now : RosTime)
    (p : gps_data_t) (bus : Bus) (g : NavSatFix)
    (h : (process_data_navsat api self now p bus).navsat_fix_pub
          = bus.navsat_fix_pub ++ [g]) :
    g.position_covariance
      = [p.fix.epx, Double.fin 0, Double.fin 0,
         Double.fin 0, p.fix.epy, Double.fin 0,
         Double.fin 0, Double.fin 0, p.fix.epv] := by
  have hg := geodetic_record_of_published api self now p bus g h
  have hc := geodetic_record_cases api self now p g hg
  rw [geodetic_record_eq_some api self now p hc] at hg
  cases hg
  rfl

/-- Witness of C7 amended: `fix.epx = 2`, `fix.epy = 3`, `fix.epv = 4`. -/
theorem C7_covariance_diagonal_witness :
    ((process_data_navsat 5 {} (RosTime.raw 10 5) snapshot_two_sats {}).navsat_fix_pub.headD
        {}).position_covariance
      = [snapshot_two_sats.fix.epx, Double.fin 0, Double.fin 0,
         Double.fin 0, snapshot_two_sats.fix.epy, Double.fin 0,
         Double.fin 0, Double.fin 0, snapshot_two_sats.fix.epv] :=
  C7_covariance_diagonal 5 {} (RosTime.raw 10 5) snapshot_two_sats {}
    ((process_data_navsat 5 {} (RosTime.raw 10 5) snapshot_two_sats {}).navsat_fix_pub.headD {})
    (by decide)

/-- C8: in every Geodetic record that `process_data_navsat` publishes, the covariance
type is `COVARIANCE_TYPE_UNKNOWN` if `fix.epx` is NaN and
`COVARIANCE_TYPE_DIAGONAL_KNOWN` otherwise. -/
theorem C8_covariance_type (api : Nat) (self : GPSDClient) (now : RosTime)
    (p : gps_data_t) (bus : Bus) (g : NavSatFix)
    (h : (process_data_navsat api self now p bus).navsat_fix_pub
          = bus.navsat_fix_pub ++ [g]) :
    g.position_covariance_type
      = if p.fix.epx = Double.nan then NavSatFix.COVARIANCE_TYPE_UNKNOWN
        else NavSatFix.COVARIANCE_TYPE_DIAGONAL_KNOWN := by
  have hg := geodetic_record_of_published api self now p bus g h
  have hc := geodetic_record_cases api self now p g hg
  rw [geodetic_record_eq_some api self now p hc] at hg
  cases hg
  by_cases hn : p.fix.epx = Double.nan
  · simp [hn, Double.isnan]
  · have : p.fix.epx.isnan = false := by
      cases hb : p.fix.epx.isnan with
      | false => rfl
      | true => exact absurd ((Double.isnan_iff _).1 hb) hn
    simp [hn, this]

/-- Witness of C8: without the variance check a snapshot with NaN `fix.epx` is
published, with type `COVARIANCE_TYPE_UNKNOWN`. -/
theorem C8_covariance_type_witness :
    ((process_data_navsat 9 { check_fix_by_variance := false } (RosTime.raw 10 5)
        { snapshot_no_time with fix := { snapshot_no_time.fix with epx := Double.nan } }
        {}).navsat_fix_pub.headD {}).position_covariance_type
      = if ({ snapshot_no_time with
              fix := { snapshot_no_time.fix with epx := Double.nan } } : gps_data_t).fix.epx
            = Double.nan
        then NavSatFix.COVARIANCE_TYPE_UNKNOWN
        else NavSatFix.COVARIANCE_TYPE_DIAGONAL_KNOWN :=
  C8_covariance_type 9 { check_fix_by_variance := false } (RosTime.raw 10 5)
    { snapshot_no_time with fix := { snapshot_no_time.fix with epx := Double.nan } } {}
    ((process_data_navsat 9 { check_fix_by_variance := false } (RosTime.raw 10 5)
        { snapshot_no_time with fix := { snapshot_no_time.fix with epx := Double.nan } }
        {}).navsat_fix_pub.headD {})
    (by decide)

/-- C9, evaluated where it fails: generation 9, default configuration (`use_gps_time`
true), an online snapshot whose fix time is absent (zero `timespec`).  The Geodetic
record is stamped `ros::Time(0, 0)`, built from the absent fix time, and not with the
clock reading; on generation 8 the same snapshot (NaN fix time) gets the clock
reading. -/
theorem C9_absent_fix_time_is_stamped :
    snapshot_no_time.fix.time_ts = { tv_sec := 0, tv_nsec := 0 }
      ∧ (process_data 9 {} (RosTime.raw 10 0) (RosTime.raw 10 5)
          (some snapshot_no_time) {}).navsat_fix_pub.map (fun g => g.header.stamp)
          = [RosTime.ofSecNsec 0 0]
      ∧ RosTime.ofSecNsec 0 0 ≠ RosTime.raw 10 5
      ∧ (process_data 8 {} (RosTime.raw 10 0) (RosTime.raw 10 5)
          (some snapshot_no_time) {}).navsat_fix_pub.map (fun g => g.header.stamp)
          = [RosTime.raw 10 5] := by
  decide

theorem resize_nil {α : Type} [Inhabited α] (n : Nat) :
    resize ([] : List α) n = List.replicate n default := by
  simp [resize]

theorem toUInt16_natCast (n : Nat) (h : n < 65536) : toUInt16 (n : Int) = n := by
  unfold toUInt16
  omega

/-- The four visible-satellite arrays after the second loop, slot by slot. -/
theorem process_data_gps_status_visible (api : Nat) (time : RosTime) (p : gps_data_t)
    (j : Nat) :
    (process_data_gps_status api time p).satellite_visible_prn[j]?
        = (if j < (SATS_VISIBLE api p).toNat then
            (List.replicate (toUInt16 (SATS_VISIBLE api p)) (default : Int))[j]?.map
              (fun _ => if api > 5 then (readAt p.skyview j).PRN else readAt p.PRN j)
          else (List.replicate (toUInt16 (SATS_VISIBLE api p)) (default : Int))[j]?)
      ∧ (process_data_gps_status api time p).satellite_visible_z[j]?
        = (if j < (SATS_VISIBLE api p).toNat then
            (List.replicate (toUInt16 (SATS_VISIBLE api p)) (default : Double))[j]?.map
              (fun _ => if api > 5 then (readAt p.skyview j).elevation
                        else readAt p.elevation j)
          else (List.replicate (toUInt16 (SATS_VISIBLE api p)) (default : Double))[j]?)
      ∧ (process_data_gps_status api time p).satellite_visible_azimuth[j]?
        = (if j < (SATS_VISIBLE api p).toNat then
            (List.replicate (toUInt16 (SATS_VISIBLE api p)) (default : Double))[j]?.map
              (fun _ => if api > 5 then (readAt p.skyview j).azimuth
                        else readAt p.azimuth j)
          else (List.replicate (toUInt16 (SATS_VISIBLE api p)) (default : Double))[j]?)
      ∧ (process_data_gps_status api time p).satellite_visible_snr[j]?
        = (if j < (SATS_VISIBLE api p).toNat then
            (List.replicate (toUInt16 (SATS_VISIBLE api p)) (default : Double))[j]?.map
              (fun _ => if api > 5 then (readAt p.skyview j).ss else readAt p.ss j)
          else (List.replicate (toUInt16 (SATS_VISIBLE api p)) (default : Double))[j]?) := by
  unfold process_data_gps_status
  refine ⟨?_, ?_, ?_, ?_⟩
  · rw [forLoop_fills GPSStatus.satellite_visible_prn
      (fun i => if api > 5 then (readAt p.skyview i).PRN else readAt p.PRN i) _
      (by intro i s; split <;> rfl)]
    simp only
    rw [forLoop_keeps GPSStatus.satellite_visible_prn _ (by intro i s; split <;> rfl)]
    simp only [resize_nil]
  · rw [forLoop_fills GPSStatus.satellite_visible_z
      (fun i => if api > 5 then (readAt p.skyview i).elevation else readAt p.elevation i) _
      (by intro i s; split <;> rfl)]
    simp only
    rw [forLoop_keeps GPSStatus.satellite_visible_z _ (by intro i s; split <;> rfl)]
    simp only [resize_nil]
  · rw [forLoop_fills GPSStatus.satellite_visible_azimuth
      (fun i => if api > 5 then (readAt p.skyview i).azimuth else readAt p.azimuth i) _
      (by intro i s; split <;> rfl)]
    simp only
    rw [forLoop_keeps GPSStatus.satellite_visible_azimuth _ (by intro i s; split <;> rfl)]
    simp only [resize_nil]
  · rw [forLoop_fills GPSStatus.satellite_visible_snr
      (fun i => if api > 5 then (readAt p.skyview i).ss else readAt p.ss i) _
      (by intro i s; split <;> rfl)]
    simp only
    rw [forLoop_keeps GPSStatus.satellite_visible_snr _ (by intro i s; split <;> rfl)]
    simp only [resize_nil]

/-- A list whose slots below `n` are read from `l` through `g`, and which ends there, is
the image of the first `n` elements of `l`. -/
theorem eq_take_map_of_getElem? {α β : Type} [Inhabited α] (l : List α) (g : α → β)
    (n : Nat) (hn : n ≤ l.length) (out : List β)
    (hout : ∀ j, out[j]? = if j < n then some (g (readAt l j)) else none) :
    out = (l.take n).map g := by
  apply List.ext_getElem?
  intro j
  rw [hout, List.getElem?_map, List.getElem?_take]
  by_cases hj : j < n
  · have hl : j < l.length := Nat.lt_of_lt_of_le hj hn
    simp [hj, readAt, List.getElem?_eq_getElem hl]
  · simp [hj]
/-- The four visible-satellite arrays for a count `n` that fits the `uint16` field. -/
theorem process_data_gps_status_visible_of_count (api : Nat) (time : RosTime)
    (p : gps_data_t) (n : Nat) (hn : SATS_VISIBLE api p = (n : Int)) (hmax : n < 65536)
    (j : Nat) :
    (process_data_gps_status api time p).satellite_visible_prn[j]?
        = (if j < n then
            some (if api > 5 then (readAt p.skyview j).PRN else readAt p.PRN j)
          else none)
      ∧ (process_data_gps_status api time p).satellite_visible_z[j]?
        = (if j < n then
            some (if api > 5 then (readAt p.skyview j).elevation else readAt p.elevation j)
          else none)
      ∧ (process_data_gps_status api time p).satellite_visible_azimuth[j]?
        = (if j < n then
            some (if api > 5 then (readAt p.skyview j).azimuth else readAt p.azimuth j)
          else none)
      ∧ (process_data_gps_status api time p).satellite_visible_snr[j]?
        = (if j < n then
            some (if api > 5 then (readAt p.skyview j).ss else readAt p.ss j)
          else none) := by
  obtain ⟨h1, h2, h3, h4⟩ := process_data_gps_status_visible api time p j
  rw [h1, h2, h3, h4, hn, toUInt16_natCast n hmax, Int.toNat_ofNat]
  by_cases hj : j < n <;> simp [hj, List.getElem?_replicate]

/-- C10: for every API generation and every online snapshot whose visible count is
`n ≥ 0`, with `n` not exceeding the daemon's table size (which is below 65536, as
every `MAXCHANNELS` is), one Extended record is published; its four visible-satellite
arrays have length exactly `n` and are, in order, the PRN, elevation, azimuth and
signal strength of the first `n` slots of the daemon's table (the unified table above
generation 5, the legacy arrays otherwise); for `n = 0` they are empty. -/
theorem C10_visible_table_is_copied (api : Nat) (_hapi : 3 ≤ api) (self : GPSDClient)
    (now_gps now_navsat : RosTime) (p : gps_data_t) (bus : Bus) (n : Nat)
    (hon : ¬ online_unset api p) (hn : SATS_VISIBLE api p = (n : Int))
    (hsize : n ≤ table_size api p) (hmax : table_size api p < 65536) :
    ∃ r : GPSFix,
      (process_data api self now_gps now_navsat (some p) bus).gps_fix_pub
          = bus.gps_fix_pub ++ [r]
        ∧ r.status.satellites_visible = n
        ∧ (r.status.satellite_visible_prn.length = n
            ∧ r.status.satellite_visible_z.length = n
            ∧ r.status.satellite_visible_azimuth.length = n
            ∧ r.status.satellite_visible_snr.length = n)
        ∧ (if api > 5 then
            r.status.satellite_visible_prn = (p.skyview.take n).map (fun s => s.PRN)
              ∧ r.status.satellite_visible_z = (p.skyview.take n).map (fun s => s.elevation)
              ∧ r.status.satellite_visible_azimuth
                  = (p.skyview.take n).map (fun s => s.azimuth)
              ∧ r.status.satellite_visible_snr = (p.skyview.take n).map (fun s => s.ss)
          else
            r.status.satellite_visible_prn = p.PRN.take n
              ∧ r.status.satellite_visible_z = p.elevation.take n
              ∧ r.status.satellite_visible_azimuth = p.azimuth.take n
              ∧ r.status.satellite_visible_snr = p.ss.take n)
        ∧ (n = 0 →
            r.status.satellite_visible_prn = [] ∧ r.status.satellite_visible_z = []
              ∧ r.status.satellite_visible_azimuth = []
              ∧ r.status.satellite_visible_snr = []) := by
  obtain ⟨hg, -⟩ := process_data_online api self now_gps now_navsat p bus hon
  have hnmax : n < 65536 := Nat.lt_of_le_of_lt hsize hmax
  have hv := process_data_gps_status_visible_of_count api now_gps p n hn hnmax
  have e1 : (extended_record api self now_gps p).status.satellite_visible_prn
      = (process_data_gps_status api now_gps p).satellite_visible_prn := by
    rw [extended_record_status]
  have e2 : (extended_record api self now_gps p).status.satellite_visible_z
      = (process_data_gps_status api now_gps p).satellite_visible_z := by
    rw [extended_record_status]
  have e3 : (extended_record api self now_gps p).status.satellite_visible_azimuth
      = (process_data_gps_status api now_gps p).satellite_visible_azimuth := by
    rw [extended_record_status]
  have e4 : (extended_record api self now_gps p).status.satellite_visible_snr
      = (process_data_gps_status api now_gps p).satellite_visible_snr := by
    rw [extended_record_status]
  have e0 : (extended_record api self now_gps p).status.satellites_visible = n := by
    rw [extended_record_status]
    show (process_data_gps_status api now_gps p).satellites_visible = n
    rw [(process_data_gps_status_counts api now_gps p).2, hn, toUInt16_natCast n hnmax]
  have key : if api > 5 then
      (extended_record api self now_gps p).status.satellite_visible_prn
          = (p.skyview.take n).map (fun s => s.PRN)
        ∧ (extended_record api self now_gps p).status.satellite_visible_z
          = (p.skyview.take n).map (fun s => s.elevation)
        ∧ (extended_record api self now_gps p).status.satellite_visible_azimuth
          = (p.skyview.take n).map (fun s => s.azimuth)
        ∧ (extended_record api self now_gps p).status.satellite_visible_snr
          = (p.skyview.take n).map (fun s => s.ss)
      else
        (extended_record api self now_gps p).status.satellite_visible_prn = p.PRN.take n
        ∧ (extended_record api self now_gps p).status.satellite_visible_z
          = p.elevation.take n
        ∧ (extended_record api self now_gps p).status.satellite_visible_azimuth
          = p.azimuth.take n
        ∧ (extended_record api self now_gps p).status.satellite_visible_snr
          = p.ss.take n := by
    rw [e1, e2, e3, e4]
    by_cases h5 : api > 5
    · have hs : n ≤ p.skyview.length := by simpa [table_size, h5] using hsize
      simp only [h5, if_true] at hv ⊢
      exact ⟨eq_take_map_of_getElem? p.skyview (fun s => s.PRN) n hs _ (fun j => (hv j).1),
        eq_take_map_of_getElem? p.skyview (fun s => s.elevation) n hs _ (fun j => (hv j).2.1),
        eq_take_map_of_getElem? p.skyview (fun s => s.azimuth) n hs _ (fun j => (hv j).2.2.1),
        eq_take_map_of_getElem? p.skyview (fun s => s.ss) n hs _ (fun j => (hv j).2.2.2)⟩
    · have hs : n ≤ min (min p.PRN.length p.elevation.length)
          (min p.azimuth.length p.ss.length) := by simpa [table_size, h5] using hsize
      simp only [h5, if_false] at hv ⊢
      have a1 := eq_take_map_of_getElem? p.PRN id n (by omega) _ (fun j => (hv j).1)
      have a2 := eq_take_map_of_getElem? p.elevation id n (by omega) _ (fun j => (hv j).2.1)
      have a3 := eq_take_map_of_getElem? p.azimuth id n (by omega) _ (fun j => (hv j).2.2.1)
      have a4 := eq_take_map_of_getElem? p.ss id n (by omega) _ (fun j => (hv j).2.2.2)
      rw [List.map_id] at a1 a2 a3 a4
      exact ⟨a1, a2, a3, a4⟩
  have hlen : ∀ {β : Type} (l : List β), (∀ j, l[j]? = none ↔ n ≤ j) → l.length = n := by
    intro β l h
    have h1 := (h l.length).1 (List.getElem?_eq_none (Nat.le_refl _))
    have h2 : l.length ≤ n := by
      by_contra hc
      have := (h n).2 (Nat.le_refl _)
      rw [List.getElem?_eq_none_iff] at this
      omega
    omega
  have l1 : (extended_record api self now_gps p).status.satellite_visible_prn.length = n := by
    rw [e1]; apply hlen; intro j; rw [(hv j).1]; by_cases hj : j < n <;> simp [hj]; omega
  have l2 : (extended_record api self now_gps p).status.satellite_visible_z.length = n := by
    rw [e2]; apply hlen; intro j; rw [(hv j).2.1]; by_cases hj : j < n <;> simp [hj]; omega
  have l3 : (extended_record api self now_gps p).status.satellite_visible_azimuth.length
      = n := by
    rw [e3]; apply hlen; intro j; rw [(hv j).2.2.1]; by_cases hj : j < n <;> simp [hj]; omega
  have l4 : (extended_record api self now_gps p).status.satellite_visible_snr.length = n := by
    rw [e4]; apply hlen; intro j; rw [(hv j).2.2.2]; by_cases hj : j < n <;> simp [hj]; omega
  refine ⟨_, hg, e0, ⟨l1, l2, l3, l4⟩, key, ?_⟩
  intro h0
  rw [h0] at l1 l2 l3 l4
  exact ⟨List.length_eq_zero.1 l1, List.length_eq_zero.1 l2, List.length_eq_zero.1 l3,
    List.length_eq_zero.1 l4⟩

/-- Witness of C10: generation 10, three visible satellites in the unified table. -/
theorem C10_visible_table_is_copied_witness :
    ∃ r : GPSFix,
      (process_data 10 {} (RosTime.raw 10 0) (RosTime.raw 10 5)
          (some snapshot_skyview) {}).gps_fix_pub = ({} : Bus).gps_fix_pub ++ [r]
        ∧ r.status.satellites_visible = 3
        ∧ (r.status.satellite_visible_prn.length = 3
            ∧ r.status.satellite_visible_z.length = 3
            ∧ r.status.satellite_visible_azimuth.length = 3
            ∧ r.status.satellite_visible_snr.length = 3)
        ∧ (if 10 > 5 then
            r.status.satellite_visible_prn
                = (snapshot_skyview.skyview.take 3).map (fun s => s.PRN)
              ∧ r.status.satellite_visible_z
                  = (snapshot_skyview.skyview.take 3).map (fun s => s.elevation)
              ∧ r.status.satellite_visible_azimuth
                  = (snapshot_skyview.skyview.take 3).map (fun s => s.azimuth)
              ∧ r.status.satellite_visible_snr
                  = (snapshot_skyview.skyview.take 3).map (fun s => s.ss)
          else
            r.status.satellite_visible_prn = snapshot_skyview.PRN.take 3
              ∧ r.status.satellite_visible_z = snapshot_skyview.elevation.take 3
              ∧ r.status.satellite_visible_azimuth = snapshot_skyview.azimuth.take 3
              ∧ r.status.satellite_visible_snr = snapshot_skyview.ss.take 3)
        ∧ (3 = 0 →
            r.status.satellite_visible_prn = [] ∧ r.status.satellite_visible_z = []
              ∧ r.status.satellite_visible_azimuth = []
              ∧ r.status.satellite_visible_snr = []) :=
  C10_visible_table_is_copied 10 (by decide) {} (RosTime.raw 10 0) (RosTime.raw 10 5)
    snapshot_skyview {} 3 (by decide) (by decide) (by decide) (by decide)

/-- C11, evaluated where it fails: generation 10, default configuration, an online
snapshot with visible PRNs 5, 7, 9, of which the daemon marks the first and the third
used (`satellites_used = 2`).  The Extended record lists as used PRNs the 0/1 values of
the `used` flags of the first two slots, `[1, 0]`: neither used satellite is in the
list.  On generation 5 the list is the first `satellites_used` entries of the legacy
array `used`. -/
theorem C11_used_flags_stored_as_prns :
    ((process_data 10 {} (RosTime.raw 10 0) (RosTime.raw 10 5)
        (some snapshot_skyview) {}).gps_fix_pub.map
          (fun r => (r.status.satellite_visible_prn, r.status.satellite_used_prn))
        = [([5, 7, 9], [1, 0])]
      ∧ snapshot_skyview.skyview.map (fun s => (s.PRN, s.used))
          = [(5, true), (7, false), (9, true)]
      ∧ snapshot_skyview.satellites_used = 2
      ∧ (5 : Int) ∉ ([1, 0] : List Int) ∧ (9 : Int) ∉ ([1, 0] : List Int))
    ∧ ((process_data 5 {} (RosTime.raw 10 0) (RosTime.raw 10 5)
        (some snapshot_two_sats) {}).gps_fix_pub.map
          (fun r => (r.status.satellite_visible_prn, r.status.satellite_used_prn))
        = [([7, 9], [7])]
      ∧ snapshot_two_sats.used = [7]) := by
  decide

/-- The header of the Extended record. -/
theorem extended_record_header (api : Nat) (self : GPSDClient) (now : RosTime)
    (p : gps_data_t) :
    (extended_record api self now p).header
      = { stamp := now, frame_id := self.frame_id } := by
  simp only [extended_record, process_data_gps, List.nil_append, List.headD_cons]
  split <;> rfl

/-- C12: for every online snapshot and every configuration, exactly one Extended
record is published (by `process_data_gps`, which leaves the other publisher alone);
its header stamp is the clock reading of the call, whatever the daemon's fix time and
`use_gps_time`, and its header frame is the configured frame label. -/
theorem C12_one_extended_record_with_clock_stamp (api : Nat) (_hapi : 3 ≤ api)
    (self : GPSDClient) (now_gps now_navsat : RosTime) (p : gps_data_t) (bus : Bus)
    (hon : ¬ online_unset api p) :
    ∃ r : GPSFix,
      (process_data api self now_gps now_navsat (some p) bus).gps_fix_pub
          = bus.gps_fix_pub ++ [r]
        ∧ process_data_gps api self now_gps p bus
            = { gps_fix_pub := bus.gps_fix_pub ++ [r], navsat_fix_pub := bus.navsat_fix_pub }
        ∧ r.header.stamp = now_gps
        ∧ r.header.frame_id = self.frame_id := by
  obtain ⟨hg, -⟩ := process_data_online api self now_gps now_navsat p bus hon
  refine ⟨_, hg, process_data_gps_eq api self now_gps p bus, ?_, ?_⟩
  · rw [extended_record_header]
  · rw [extended_record_header]

/-- Witness of C12: generation 9, default configuration (`use_gps_time` true), a
snapshot with a fix and a daemon fix time. -/
theorem C12_one_extended_record_with_clock_stamp_witness :
    ∃ r : GPSFix,
      (process_data 9 {} (RosTime.raw 10 0) (RosTime.raw 10 5)
          (some snapshot_skyview) {}).gps_fix_pub = ({} : Bus).gps_fix_pub ++ [r]
        ∧ process_data_gps 9 {} (RosTime.raw 10 0) snapshot_skyview {}
            = { gps_fix_pub := ({} : Bus).gps_fix_pub ++ [r]
                navsat_fix_pub := ({} : Bus).navsat_fix_pub }
        ∧ r.header.stamp = RosTime.raw 10 0
        ∧ r.header.frame_id = ({} : GPSDClient).frame_id :=
  C12_one_extended_record_with_clock_stamp 9 (by decide) {} (RosTime.raw 10 0)
    (RosTime.raw 10 5) snapshot_skyview {} (by decide)
/-- C13: on API generation 6, for every snapshot and every configuration, the record
that the Extended builder publishes has status `STATUS_NO_FIX` or `STATUS_FIX` and
never `STATUS_FIX | STATUS_DGPS_FIX`, and every record that the Geodetic builder
publishes has navigation status `STATUS_NO_FIX` or `STATUS_FIX` and never
`STATUS_GBAS_FIX`. -/
theorem C13_generation_six_has_no_differential (self : GPSDClient) (now : RosTime)
    (p : gps_data_t) (bus : Bus) :
    (∃ r : GPSFix,
        (process_data_gps 6 self now p bus).gps_fix_pub = bus.gps_fix_pub ++ [r]
          ∧ (r.status.status = GPSStatus.STATUS_NO_FIX
              ∨ r.status.status = GPSStatus.STATUS_FIX)
          ∧ r.status.status ≠ Int.lor GPSStatus.STATUS_FIX GPSStatus.STATUS_DGPS_FIX)
      ∧ ∀ g : NavSatFix,
          (process_data_navsat 6 self now p bus).navsat_fix_pub = bus.navsat_fix_pub ++ [g] →
            (g.status.status = NavSatStatus.STATUS_NO_FIX
                ∨ g.status.status = NavSatStatus.STATUS_FIX)
              ∧ g.status.status ≠ NavSatStatus.STATUS_GBAS_FIX := by
  constructor
  · refine ⟨extended_record 6 self now p, ?_, ?_⟩
    · rw [process_data_gps_eq]
    · rw [extended_status, lor_fix_dgps]
      split <;> simp [GPSStatus.STATUS_NO_FIX, GPSStatus.STATUS_FIX]
  · intro g h
    have hg := geodetic_record_of_published 6 self now p bus g h
    have hc := geodetic_record_cases 6 self now p g hg
    rw [geodetic_record_eq_some 6 self now p hc] at hg
    cases hg
    simp only [ne_eq, not_true_eq_false, false_and, if_false]
    split_ifs <;> simp [NavSatStatus.STATUS_NO_FIX, NavSatStatus.STATUS_FIX,
      NavSatStatus.STATUS_GBAS_FIX]

/-- Witness of C13: generation 6 with status word 3 (both bits set) gives `STATUS_FIX`
on the Geodetic channel. -/
theorem C13_generation_six_has_no_differential_witness :
    (((process_data_navsat 6 {} (RosTime.raw 10 5) snapshot_code_three
          {}).navsat_fix_pub.headD {}).status.status = NavSatStatus.STATUS_NO_FIX
        ∨ ((process_data_navsat 6 {} (RosTime.raw 10 5) snapshot_code_three
          {}).navsat_fix_pub.headD {}).status.status = NavSatStatus.STATUS_FIX)
      ∧ ((process_data_navsat 6 {} (RosTime.raw 10 5) snapshot_code_three
          {}).navsat_fix_pub.headD {}).status.status ≠ NavSatStatus.STATUS_GBAS_FIX :=
  (C13_generation_six_has_no_differential {} (RosTime.raw 10 5) snapshot_code_three {}).2
    ((process_data_navsat 6 {} (RosTime.raw 10 5) snapshot_code_three
          {}).navsat_fix_pub.headD {})
    (by decide)

/-- C14: in every Geodetic record that `process_data_navsat` publishes, on every API
generation and whatever the status code, latitude, longitude and altitude are the
snapshot's `fix.latitude`, `fix.longitude` and `fix.altitude`, and the service tag is
`SERVICE_GPS`. -/
theorem C14_position_and_service (api : Nat) (_hapi : 3 ≤ api) (self : GPSDClient)
    (now : RosTime) (p : gps_data_t) (bus : Bus) (g : NavSatFix)
    (h : (process_data_navsat api self now p bus).navsat_fix_pub
          = bus.navsat_fix_pub ++ [g]) :
    g.latitude = p.fix.latitude ∧ g.longitude = p.fix.longitude
      ∧ g.altitude = p.fix.altitude ∧ g.status.service = NavSatStatus.SERVICE_GPS := by
  have hg := geodetic_record_of_published api self now p bus g h
  have hc := geodetic_record_cases api self now p g hg
  rw [geodetic_record_eq_some api self now p hc] at hg
  cases hg
  exact ⟨rfl, rfl, rfl, rfl⟩

/-- Witness of C14: generation 5, a snapshot with a position and status word 0, which
is published with `STATUS_NO_FIX`. -/
theorem C14_position_and_service_witness :
    ((process_data_navsat 5 {} (RosTime.raw 10 5) snapshot_position_no_fix
        {}).navsat_fix_pub.headD {}).latitude
        = snapshot_position_no_fix.fix.latitude
      ∧ ((process_data_navsat 5 {} (RosTime.raw 10 5) snapshot_position_no_fix
        {}).navsat_fix_pub.headD {}).longitude
        = snapshot_position_no_fix.fix.longitude
      ∧ ((process_data_navsat 5 {} (RosTime.raw 10 5) snapshot_position_no_fix
        {}).navsat_fix_pub.headD {}).altitude
        = snapshot_position_no_fix.fix.altitude
      ∧ ((process_data_navsat 5 {} (RosTime.raw 10 5) snapshot_position_no_fix
        {}).navsat_fix_pub.headD {}).status.service = NavSatStatus.SERVICE_GPS :=
  C14_position_and_service 5 (by decide) {} (RosTime.raw 10 5)
    snapshot_position_no_fix {}
    ((process_data_navsat 5 {} (RosTime.raw 10 5) snapshot_position_no_fix
        {}).navsat_fix_pub.headD {})
    (by decide)

/-- The fix-time field of the Extended record. -/
theorem extended_record_time (api : Nat) (self : GPSDClient) (now : RosTime)
    (p : gps_data_t) :
    (extended_record api self now p).time =
      if (Int.land (status_word api p) GPSD_STATUS_FIX != 0)
          && !(self.check_fix_by_variance && p.fix.epx.isnan) then
        (if api ≥ 9 then p.fix.time_ts.toDouble else p.fix.time)
      else Double.fin 0 := by
  simp only [extended_record, process_data_gps, List.nil_append, List.headD_cons]
  split <;> rfl

/-- The Extended record is classified as a fix exactly on the first branch. -/
theorem extended_status_fix_iff (api : Nat) (self : GPSDClient) (now : RosTime)
    (p : gps_data_t) :
    ((extended_record api self now p).status.status = GPSStatus.STATUS_FIX
        ∨ (extended_record api self now p).status.status
            = Int.lor GPSStatus.STATUS_FIX GPSStatus.STATUS_DGPS_FIX)
      ↔ ((Int.land (status_word api p) GPSD_STATUS_FIX != 0)
          && !(self.check_fix_by_variance && p.fix.epx.isnan)) = true := by
  rw [extended_status, lor_fix_dgps]
  by_cases hc : ((Int.land (status_word api p) GPSD_STATUS_FIX != 0)
          && !(self.check_fix_by_variance && p.fix.epx.isnan)) = true
  · simp only [hc, if_true, iff_true]
    split
    · right; rfl
    · left; rfl
  · simp only [hc, Bool.false_eq_true, if_false, iff_false]
    simp [GPSStatus.STATUS_FIX]

/-- C15, as stated, fails: generation 8, default configuration, an online snapshot
with status word 1 and NaN fix time.  The Extended record is classified `STATUS_FIX`
and its fix-time field is the copied NaN, not the default value 0. -/
theorem C15_nan_fix_time_is_copied :
    snapshot_no_time.fix.time = Double.nan
      ∧ (process_data 8 {} (RosTime.raw 10 0) (RosTime.raw 10 5)
          (some snapshot_no_time) {}).gps_fix_pub.map (fun r => (r.status.status, r.time))
          = [(GPSStatus.STATUS_FIX, Double.nan)]
      ∧ Double.nan ≠ ({} : GPSFix).time := by
  decide

/-- C15, amended: for every online snapshot classified as Fix or DifferentialFix whose
daemon fix time is absent (the zero `timespec` from generation 9 on, NaN before), the
fix-time field of the Extended record is, for every clock reading, the daemon's value
in the representation of the generation: 0 from generation 9 on, which is also the
unset default, and the copied NaN before. -/
theorem C15_absent_fix_time (api : Nat) (_hapi : 3 ≤ api) (self : GPSDClient)
    (now_gps now_navsat : RosTime) (p : gps_data_t) (bus : Bus)
    (hon : ¬ online_unset api p)
    (hfix : (extended_record api self now_gps p).status.status = GPSStatus.STATUS_FIX
        ∨ (extended_record api self now_gps p).status.status
            = Int.lor GPSStatus.STATUS_FIX GPSStatus.STATUS_DGPS_FIX)
    (habsent : if 9 ≤ api then p.fix.time_ts = { tv_sec := 0, tv_nsec := 0 }
               else p.fix.time = Double.nan) :
    ∃ r : GPSFix,
      (process_data api self now_gps now_navsat (some p) bus).gps_fix_pub
          = bus.gps_fix_pub ++ [r]
        ∧ r.time = if 9 ≤ api then Double.fin 0 else Double.nan := by
  obtain ⟨hg, -⟩ := process_data_online api self now_gps now_navsat p bus hon
  refine ⟨_, hg, ?_⟩
  rw [extended_record_time, (extended_status_fix_iff api self now_gps p).1 hfix]
  by_cases h9 : 9 ≤ api
  · simp only [h9, if_true] at habsent
    simp [h9, habsent, timespec.toDouble]
  · simp only [h9, if_false] at habsent
    simp [h9, habsent]

/-- Witness of C15 amended: generation 9 with the zero `timespec`. -/
theorem C15_absent_fix_time_witness :
    ∃ r : GPSFix,
      (process_data 9 {} (RosTime.raw 10 0) (RosTime.raw 10 5)
          (some snapshot_no_time) {}).gps_fix_pub = ({} : Bus).gps_fix_pub ++ [r]
        ∧ r.time = if 9 ≤ 9 then Double.fin 0 else Double.nan :=
  C15_absent_fix_time 9 (by decide) {} (RosTime.raw 10 0) (RosTime.raw 10 5)
    snapshot_no_time {} (by decide) (by decide) (by decide)

/-- C17: with the variance override not applying, the status of the Extended record of
an online snapshot is `STATUS_NO_FIX` iff `statusCode & GPSD_STATUS_FIX` is zero; so a
snapshot whose status code is exactly `GPSD_STATUS_DGPS_FIX` is published as
`STATUS_NO_FIX` on the Extended channel, while on generations other than 6 the
Geodetic record of the same snapshot is published with `STATUS_GBAS_FIX`. -/
theorem C17_extended_tests_bit_zero_only (api : Nat) (_hapi : 3 ≤ api)
    (self : GPSDClient) (now_gps now_navsat : RosTime) (p : gps_data_t) (bus : Bus)
    (hon : ¬ online_unset api p)
    (hvar : ¬ (self.check_fix_by_variance = true ∧ p.fix.epx = Double.nan)) :
    ∃ r : GPSFix,
      (process_data api self now_gps now_navsat (some p) bus).gps_fix_pub
          = bus.gps_fix_pub ++ [r]
        ∧ (r.status.status = GPSStatus.STATUS_NO_FIX
            ↔ Int.land (status_word api p) GPSD_STATUS_FIX = 0)
        ∧ (status_word api p = GPSD_STATUS_DGPS_FIX →
            r.status.status = GPSStatus.STATUS_NO_FIX
              ∧ (api ≠ 6 →
                  ∃ g : NavSatFix,
                    (process_data api self now_gps now_navsat (some p) bus).navsat_fix_pub
                        = bus.navsat_fix_pub ++ [g]
                      ∧ g.status.status = NavSatStatus.STATUS_GBAS_FIX)) := by
  have hv : (self.check_fix_by_variance && p.fix.epx.isnan) = false := by
    rw [Bool.and_eq_false_iff]
    by_cases hc : self.check_fix_by_variance = true
    · right
      have : ¬ p.fix.epx.isnan = true := fun hh => hvar ⟨hc, (Double.isnan_iff _).1 hh⟩
      simpa using this
    · left; simpa using hc
  have hc : (p.fix.epx.isnan && self.check_fix_by_variance) = false := by
    rw [Bool.and_comm]; exact hv
  have hbus := process_data_online_some api self now_gps now_navsat p bus _ hon
    (geodetic_record_eq_some api self now_navsat p hc)
  have hiff : (extended_record api self now_gps p).status.status = GPSStatus.STATUS_NO_FIX
      ↔ Int.land (status_word api p) GPSD_STATUS_FIX = 0 := by
    rw [extended_status]
    by_cases hb : Int.land (status_word api p) GPSD_STATUS_FIX = 0
    · simp [hb, hv, GPSStatus.STATUS_NO_FIX]
    · simp only [hv, hb, bne_iff_ne, ne_eq, not_false_eq_true, Bool.not_false, Bool.and_true,
        decide_True, if_true, iff_false, GPSStatus.STATUS_NO_FIX]
      split <;> decide
  refine ⟨extended_record api self now_gps p, by rw [hbus], hiff, ?_⟩
  intro hd
  refine ⟨hiff.2 (by rw [hd]; decide), ?_⟩
  intro h6
  refine ⟨_, by rw [hbus], ?_⟩
  simp [hd, h6, GPSD_STATUS_DGPS_FIX, GPSD_STATUS_NO_FIX, GPSD_STATUS_FIX]

/-- Witness of C17: generation 5, default configuration, status word 2. -/
theorem C17_extended_tests_bit_zero_only_witness :
    ∃ r : GPSFix,
      (process_data 5 {} (RosTime.raw 10 0) (RosTime.raw 10 5)
          (some snapshot_dgps_code) {}).gps_fix_pub = ({} : Bus).gps_fix_pub ++ [r]
        ∧ r.status.status = GPSStatus.STATUS_NO_FIX
        ∧ ∃ g : NavSatFix,
            (process_data 5 {} (RosTime.raw 10 0) (RosTime.raw 10 5)
                (some snapshot_dgps_code) {}).navsat_fix_pub
                = ({} : Bus).navsat_fix_pub ++ [g]
              ∧ g.status.status = NavSatStatus.STATUS_GBAS_FIX := by
  obtain ⟨r, hpub, -, h⟩ := C17_extended_tests_bit_zero_only 5 (by decide) {}
    (RosTime.raw 10 0) (RosTime.raw 10 5) snapshot_dgps_code {} (by decide) (by decide)
  exact ⟨r, hpub, (h (by decide)).1, (h (by decide)).2 (by decide)⟩

/-- C18: in every Geodetic record that `process_data_navsat` publishes, a status code
that the switch does not handle (none of `GPSD_STATUS_NO_FIX`, `GPSD_STATUS_FIX` and,
outside generation 6, `GPSD_STATUS_DGPS_FIX`) leaves the navigation status at its
default-constructed value 0, which is `NavSatStatus::STATUS_FIX`; and the navigation
status is `STATUS_NO_FIX` iff the status code is exactly `GPSD_STATUS_NO_FIX`. -/
theorem C18_switch_without_default (api : Nat) (_hapi : 3 ≤ api) (self : GPSDClient)
    (now : RosTime) (p : gps_data_t) (bus : Bus) (g : NavSatFix)
    (h : (process_data_navsat api self now p bus).navsat_fix_pub
          = bus.navsat_fix_pub ++ [g]) :
    (status_word api p ≠ GPSD_STATUS_NO_FIX → status_word api p ≠ GPSD_STATUS_FIX →
        (api = 6 ∨ status_word api p ≠ GPSD_STATUS_DGPS_FIX) →
        g.status.status = ({} : NavSatFix).status.status
          ∧ g.status.status = 0 ∧ g.status.status = NavSatStatus.STATUS_FIX)
      ∧ (g.status.status = NavSatStatus.STATUS_NO_FIX
          ↔ status_word api p = GPSD_STATUS_NO_FIX) := by
  have hg := geodetic_record_of_published api self now p bus g h
  have hc := geodetic_record_cases api self now p g hg
  rw [geodetic_record_eq_some api self now p hc] at hg
  cases hg
  constructor
  · intro h0 h1 h2
    have h2' : ¬ (api ≠ 6 ∧ status_word api p = GPSD_STATUS_DGPS_FIX) := by
      rintro ⟨a, b⟩
      cases h2 with
      | inl e => exact a e
      | inr e => exact e b
    refine ⟨?_, ?_, ?_⟩ <;> simp [h0, h1, h2', NavSatStatus.STATUS_FIX]
  · simp only
    split_ifs with a b c <;>
      simp_all [NavSatStatus.STATUS_NO_FIX, NavSatStatus.STATUS_FIX,
        NavSatStatus.STATUS_GBAS_FIX]

/-- Witness of C18: generation 5 with status code 3. -/
theorem C18_switch_without_default_witness :
    ((process_data_navsat 5 {} (RosTime.raw 10 5) snapshot_code_three
        {}).navsat_fix_pub.headD {}).status.status = ({} : NavSatFix).status.status
      ∧ ((process_data_navsat 5 {} (RosTime.raw 10 5) snapshot_code_three
        {}).navsat_fix_pub.headD {}).status.status = 0
      ∧ ((process_data_navsat 5 {} (RosTime.raw 10 5) snapshot_code_three
        {}).navsat_fix_pub.headD {}).status.status = NavSatStatus.STATUS_FIX :=
  (C18_switch_without_default 5 (by decide) {} (RosTime.raw 10 5) snapshot_code_three {}
    ((process_data_navsat 5 {} (RosTime.raw 10 5) snapshot_code_three
        {}).navsat_fix_pub.headD {})
    (by decide)).1 (by decide) (by decide) (by decide)
/-- C19: with `check_fix_by_variance` true, every Geodetic record that
`process_data_navsat` publishes has type `COVARIANCE_TYPE_DIAGONAL_KNOWN` and a
non-NaN entry 0 of the covariance; a published record of type
`COVARIANCE_TYPE_UNKNOWN` implies that `check_fix_by_variance` is false; and for an
online snapshot a Geodetic record is published iff not (`check_fix_by_variance` and
`fix.epx` is NaN), a condition in which the status code does not occur. -/
theorem C19_variance_gate (api : Nat) (_hapi : 3 ≤ api) (self : GPSDClient)
    (now_gps now_navsat : RosTime) (p : gps_data_t) (bus : Bus) :
    (∀ g : NavSatFix,
        (process_data_navsat api self now_navsat p bus).navsat_fix_pub
            = bus.navsat_fix_pub ++ [g] →
        self.check_fix_by_variance = true →
          g.position_covariance_type = NavSatFix.COVARIANCE_TYPE_DIAGONAL_KNOWN
            ∧ ∃ e : Double, g.position_covariance[0]? = some e ∧ e ≠ Double.nan)
      ∧ (∀ g : NavSatFix,
          (process_data_navsat api self now_navsat p bus).navsat_fix_pub
              = bus.navsat_fix_pub ++ [g] →
          g.position_covariance_type = NavSatFix.COVARIANCE_TYPE_UNKNOWN →
            self.check_fix_by_variance = false)
      ∧ (¬ online_unset api p →
          ((∃ g : NavSatFix,
              (process_data api self now_gps now_navsat (some p) bus).navsat_fix_pub
                = bus.navsat_fix_pub ++ [g])
            ↔ ¬ (self.check_fix_by_variance = true ∧ p.fix.epx = Double.nan))) := by
  have key : ∀ g : NavSatFix,
      (process_data_navsat api self now_navsat p bus).navsat_fix_pub
          = bus.navsat_fix_pub ++ [g] →
        (p.fix.epx.isnan && self.check_fix_by_variance) = false
          ∧ g.position_covariance[0]? = some p.fix.epx
          ∧ g.position_covariance_type
              = if p.fix.epx.isnan then NavSatFix.COVARIANCE_TYPE_UNKNOWN
                else NavSatFix.COVARIANCE_TYPE_DIAGONAL_KNOWN := by
    intro g h
    have hg := geodetic_record_of_published api self now_navsat p bus g h
    have hc := geodetic_record_cases api self now_navsat p g hg
    rw [geodetic_record_eq_some api self now_navsat p hc] at hg
    cases hg
    exact ⟨hc, rfl, rfl⟩
  refine ⟨?_, ?_, ?_⟩
  · intro g h hcfv
    obtain ⟨hc, h0, ht⟩ := key g h
    have hn : p.fix.epx.isnan = false := by simpa [hcfv] using hc
    refine ⟨by rw [ht, hn]; rfl, p.fix.epx, h0, ?_⟩
    intro he
    rw [he] at hn
    cases hn
  · intro g h hu
    obtain ⟨hc, -, ht⟩ := key g h
    cases hn : p.fix.epx.isnan with
    | true => simpa [hn] using hc
    | false =>
      rw [ht, hn] at hu
      cases hu
  · intro hon
    obtain ⟨-, hn⟩ := process_data_online api self now_gps now_navsat p bus hon
    rw [hn]
    cases hg : geodetic_record api self now_navsat p with
    | none =>
      have := (geodetic_record_eq_none api self now_navsat p).1 hg
      constructor
      · rintro ⟨g, hgg⟩
        have := congrArg List.length hgg
        simp at this
      · intro hneg
        exact absurd ⟨this.2, (Double.isnan_iff _).1 this.1⟩ hneg
    | some g0 =>
      constructor
      · intro _ hboth
        have hnone := (geodetic_record_eq_none api self now_navsat p).2
          ⟨(Double.isnan_iff _).2 hboth.2, hboth.1⟩
        rw [hnone] at hg
        cases hg
      · intro _
        exact ⟨g0, rfl⟩

/-- Witness of C19: with the variance check a snapshot with known variance is published
with type `COVARIANCE_TYPE_DIAGONAL_KNOWN`; without the check a snapshot with NaN
variance is published with type `COVARIANCE_TYPE_UNKNOWN`; with the check the latter
snapshot, although online with status OK, gets no Geodetic record. -/
theorem C19_variance_gate_witness :
    (((process_data_navsat 9 {} (RosTime.raw 10 5) snapshot_no_time
          {}).navsat_fix_pub.headD {}).position_covariance_type
        = NavSatFix.COVARIANCE_TYPE_DIAGONAL_KNOWN
      ∧ ∃ e : Double,
          ((process_data_navsat 9 {} (RosTime.raw 10 5) snapshot_no_time
            {}).navsat_fix_pub.headD {}).position_covariance[0]? = some e
          ∧ e ≠ Double.nan)
    ∧ ({ check_fix_by_variance := false } : GPSDClient).check_fix_by_variance = false
    ∧ ¬ ∃ g : NavSatFix,
        (process_data 9 {} (RosTime.raw 10 0) (RosTime.raw 10 5)
            (some snapshot_nan_variance) {}).navsat_fix_pub
          = ({} : Bus).navsat_fix_pub ++ [g] :=
  ⟨(C19_variance_gate 9 (by decide) {} (RosTime.raw 10 0) (RosTime.raw 10 5)
      snapshot_no_time {}).1
      ((process_data_navsat 9 {} (RosTime.raw 10 5) snapshot_no_time
          {}).navsat_fix_pub.headD {}) (by decide) rfl,
    (C19_variance_gate 9 (by decide) { check_fix_by_variance := false } (RosTime.raw 10 0)
      (RosTime.raw 10 5) snapshot_nan_variance {}).2.1
      ((process_data_navsat 9 { check_fix_by_variance := false } (RosTime.raw 10 5)
          snapshot_nan_variance {}).navsat_fix_pub.headD {}) (by decide) (by decide),
    fun hex =>
      ((C19_variance_gate 9 (by decide) {} (RosTime.raw 10 0) (RosTime.raw 10 5)
        snapshot_nan_variance {}).2.2 (by decide)).1 hex ⟨rfl, rfl⟩⟩

end gpsd_client
